import Mathlib

/-!
Verification of the Scouty analytics toolkit core: a shallow embedding of
the player record model (`scouty/core/player.py`), the CSV ingestion layer
(`scouty/core/parser.py`), the match analyzer
(`scouty/modules/match_analyzer.py`) and the training projection module
(`scouty/modules/training_projection.py`), together with theorems settling
the specification claims about them.

Conventions: Python `int` is modelled as `Int`, Python `float` as `ℚ`
(exact rational arithmetic in place of IEEE doubles; every numeric fact
proved here only involves values on which the two agree), Python `None`
as `Option.none`, and a Python function that can raise as an
`Except PyErr` result.  String scanning is done on `List Char` with
hand-rolled recursive helpers so that the parsing functions are both
executable and easy to reason about.
-/

namespace Scouty

/-- Exceptions of the Python runtime that the embedded code can raise. -/
inductive PyErr where
  | valueError
  | typeError
  | zeroDivisionError
  | recursionError
deriving DecidableEq, Repr

/-! ### Python string primitives -/

/-- Whitespace test used by Python's `str.strip()` / `int()` / `float()`. -/
def wsp (c : Char) : Bool := c.isWhitespace

/-- `str.strip()`: drop whitespace from both ends. -/
def trimChars (l : List Char) : List Char :=
  ((l.dropWhile wsp).reverse.dropWhile wsp).reverse

/-- Python `str.split(sep)` for a one-character separator:
`"".split(sep) = [""]`, `"a-b".split("-") = ["a", "b"]`, etc. -/
def splitOnChar (sep : Char) : List Char → List (List Char)
  | [] => [[]]
  | c :: rest =>
    if c = sep then [] :: splitOnChar sep rest
    else
      match splitOnChar sep rest with
      | [] => [[c]]
      | p :: ps => (c :: p) :: ps

/-- Numeric value of a (digit-only) character list. -/
def digitsVal (l : List Char) : Nat :=
  l.foldl (fun n c => 10 * n + (c.toNat - 48)) 0

/-- Python `int(s)` on a decimal string: strip whitespace, optional sign,
then at least one digit; anything else raises `ValueError`, modelled as
`none`.  (Underscore digit separators are not modelled.) -/
def pyIntL (l : List Char) : Option Int :=
  match trimChars l with
  | [] => none
  | c :: rest =>
    let p : Int × List Char :=
      if c = '-' then (-1, rest) else if c = '+' then (1, rest) else (1, c :: rest)
    if p.2 ≠ [] ∧ p.2.all Char.isDigit then some (p.1 * (digitsVal p.2 : Int)) else none

/-- Python `int(s)` on a `String`. -/
def pyInt (s : String) : Option Int := pyIntL s.toList

/-- Python `float(s)` on plain decimal notation (optional sign, digits,
optional fractional part); exponent/`inf`/`nan` forms are not modelled. -/
def pyFloatL (l : List Char) : Option ℚ :=
  match trimChars l with
  | [] => none
  | c :: rest =>
    let p : ℚ × List Char :=
      if c = '-' then (-1, rest) else if c = '+' then (1, rest) else (1, c :: rest)
    match splitOnChar '.' p.2 with
    | [ip] =>
      if ip ≠ [] ∧ ip.all Char.isDigit then some (p.1 * (digitsVal ip : ℚ)) else none
    | [ip, fp] =>
      if (ip ≠ [] ∨ fp ≠ []) ∧ ip.all Char.isDigit ∧ fp.all Char.isDigit then
        some (p.1 * ((digitsVal ip : ℚ) + (digitsVal fp : ℚ) / (10 : ℚ) ^ fp.length))
      else none
    | _ => none

/-- Python `float(s)` on a `String`. -/
def pyFloat (s : String) : Option ℚ := pyFloatL s.toList

/-- Python `int(x)` on a float: truncation toward zero. -/
def pyIntOfFloat (q : ℚ) : Int := if q < 0 then ⌈q⌉ else ⌊q⌋

/-- Python `round(x)`: round half to even. -/
def roundHalfEven (x : ℚ) : Int :=
  let f := ⌊x⌋
  let r := x - f
  if r < 1 / 2 then f
  else if r > 1 / 2 then f + 1
  else if f % 2 = 0 then f else f + 1

/-- Python `round(x, 1)`. -/
def roundTo1 (x : ℚ) : ℚ := (roundHalfEven (x * 10) : ℚ) / 10

/-- Python `f"{x:.2f}"` formatting on the (exact) rational value. -/
def formatF2 (q : ℚ) : String :=
  let sgn := if q < 0 then "-" else ""
  let n := (roundHalfEven (|q| * 100)).toNat
  let fp := n % 100
  sgn ++ toString (n / 100) ++ "." ++ (if fp < 10 then "0" ++ toString fp else toString fp)

/-! ### `scouty/core/player.py` -/

/-- `Position`: player positions in Hattrick. -/
inductive Position where
  | GK
  | CD
  | WB
  | IM
  | WI
  | FW
deriving DecidableEq, Repr

/-- `Player`: the normalized player data model.  The Python `skills` dict
is an association list from skill-name to integer; `dict.get` is
`skillsGet` below. -/
structure Player where
  id : String
  name : String
  age : Int
  position : Position
  skills : List (String × Int)
  salary : ℚ
  tsi : Int
  form : Int
  stamina : Int
  experience : Int
  leadership : Int
deriving DecidableEq, Repr

/-- `skills.get(k)`: dictionary lookup, `None` when the key is absent. -/
def skillsGet (skills : List (String × Int)) (k : String) : Option Int :=
  List.lookup k skills

/-- `Player.get_best_position`: goalkeeping beyond 10 wins outright;
otherwise scoring, defending and winger are tried in order with the
source's strict comparisons, falling back to inner midfielder. -/
def get_best_position (p : Player) : Position :=
  if (skillsGet p.skills "goalkeeping").getD 0 > 10 then Position.GK
  else
    let defending := (skillsGet p.skills "defending").getD 0
    let playmaking := (skillsGet p.skills "playmaking").getD 0
    let winger := (skillsGet p.skills "winger").getD 0
    let scoring := (skillsGet p.skills "scoring").getD 0
    if scoring > max defending (max playmaking winger) then Position.FW
    else if defending > max playmaking winger then Position.CD
    else if winger > playmaking then Position.WI
    else Position.IM

/-- `Player.calculate_cost_benefit`: TSI per salary unit, 0 when salary is 0. -/
def calculate_cost_benefit (p : Player) : ℚ :=
  if p.salary = 0 then 0 else (p.tsi : ℚ) / p.salary

/-! ### `scouty/core/parser.py` -/

/-- `POSITION_MAP`: Portuguese position codes to `Position` enum names. -/
def POSITION_MAP : List (String × String) :=
  [("GO", "GK"), ("ZC", "CD"), ("LD", "WB"), ("LE", "WB"), ("AD", "WB"),
   ("AE", "WB"), ("MC", "IM"), ("MD", "IM"), ("ME", "IM"), ("AT", "FW"),
   ("PD", "FW"), ("PE", "FW")]

/-- `Position[key]` for the enum-member names produced by `POSITION_MAP`.
The source raises `KeyError` on any other name, but every call site only
passes names from `POSITION_MAP` or the literal `"IM"`, so the fallback
branch is unreachable. -/
def positionOfName (key : String) : Position :=
  if key = "GK" then Position.GK
  else if key = "CD" then Position.CD
  else if key = "WB" then Position.WB
  else if key = "IM" then Position.IM
  else if key = "WI" then Position.WI
  else if key = "FW" then Position.FW
  else Position.IM

/-- One `csv.DictReader` row: column name to cell value; a missing key
models a column absent from the header. -/
def Row := List (String × String)

/-- `row.get(k, default)` with the default handled by the caller:
`none` when the column is absent. -/
def rget (row : Row) (k : String) : Option String :=
  List.lookup k row

/-- `int(row.get(col, d))`: the numeric default is used when the column is
absent; a present cell must parse or the coercion raises (`none`). -/
def coerceInt (v : Option String) (d : Int) : Option Int :=
  match v with
  | none => some d
  | some s => pyInt s

/-- `float(row.get(col, d))`, same convention as `coerceInt`. -/
def coerceFloat (v : Option String) (d : ℚ) : Option ℚ :=
  match v with
  | none => some d
  | some s => pyFloat s

/-- `_validate_player_data`: `true` iff the source function returns
without raising `ValueError`. -/
def validate_player_data (age form stamina experience leadership : Int) : Bool :=
  decide (15 ≤ age) && decide (age ≤ 50) &&
  decide (1 ≤ form) && decide (form ≤ 8) &&
  decide (0 ≤ stamina) && decide (stamina ≤ 100) &&
  decide (0 ≤ experience) && decide (experience ≤ 20) &&
  decide (0 ≤ leadership) && decide (leadership ≤ 20)

/-- The skills block of `_parse_portuguese_format`: six `int(...)` calls
evaluated in source order, outside any `try`, so the first failure aborts
the row (`none`). -/
def parseSkillsPT (row : Row) : Option (List (String × Int)) :=
  (coerceInt (rget row "Goleiro") 0).bind fun gk =>
  (coerceInt (rget row "Defesa") 0).bind fun df =>
  (coerceInt (rget row "Armação") 0).bind fun pm =>
  (coerceInt (rget row "Ala") 0).bind fun wg =>
  (coerceInt (rget row "Finalização") 0).bind fun sc =>
  (coerceInt (rget row "Bola Parada") 0).map fun sp =>
  [("goalkeeping", gk), ("defending", df), ("playmaking", pm),
   ("winger", wg), ("scoring", sc), ("set_pieces", sp)]

/-- The `try` block of `_parse_portuguese_format` coercing
salary/tsi/form/stamina/experience/leadership: if any of the six
conversions fails the `except` arm replaces the whole tuple with the
defaults `(0.0, 0, 5, 0, 0, 0)`. -/
def parseSixDefaults (row : Row) : ℚ × Int × Int × Int × Int × Int :=
  (((coerceFloat (rget row "Salário") 0).bind fun sa =>
    (coerceInt (rget row "TSI") 0).bind fun ts =>
    (coerceInt (rget row "Forma") 5).bind fun fo =>
    (coerceInt (rget row "Resistência") 0).bind fun st =>
    (coerceInt (rget row "Experiência") 0).bind fun ex =>
    (coerceInt (rget row "Liderança") 0).map fun le =>
    (sa, ts, fo, st, ex, le)) : Option (ℚ × Int × Int × Int × Int × Int)).getD
    (0, 0, 5, 0, 0, 0)

/-- `_parse_portuguese_format`: the main-squad Portuguese schema row
parser.  Age falls back to 0 on coercion failure; a failing skill cell
raises out of the function; the six money/condition fields fall back to
the full default tuple; a failing range validation silently resets
form/stamina/experience/leadership (and only those four) to defaults. -/
def parse_portuguese_format (row : Row) : Except PyErr Player :=
  let player_id := (rget row "ID do jogador").getD ""
  let name := (rget row "Nome").getD ""
  let age := (coerceInt (rget row "Idade") 0).getD 0
  let pos_code := (rget row "Posição na última partida").getD "MC"
  let position := positionOfName ((List.lookup pos_code POSITION_MAP).getD "IM")
  match parseSkillsPT row with
  | none => .error PyErr.valueError
  | some skills =>
    match parseSixDefaults row with
    | (salary, tsi, form, stamina, experience, leadership) =>
      if validate_player_data age form stamina experience leadership then
        .ok { id := player_id, name := name, age := age, position := position,
              skills := skills, salary := salary, tsi := tsi, form := form,
              stamina := stamina, experience := experience, leadership := leadership }
      else
        .ok { id := player_id, name := name, age := age, position := position,
              skills := skills, salary := salary, tsi := tsi, form := 5,
              stamina := 0, experience := 0, leadership := 0 }

/-- The main-squad batch loop of `parse_players_csv`: each row is parsed,
a raising row is skipped (after a printed diagnostic, not modelled) and
the batch continues. -/
def parseMainSquadRows (rows : List Row) : List Player :=
  match rows with
  | [] => []
  | row :: rest =>
    match parse_portuguese_format row with
    | .ok p => p :: parseMainSquadRows rest
    | .error _ => parseMainSquadRows rest

/-- `parse_skill_value` (youth schema): handles `""`, whitespace, `"?"`,
`"/?"`, `"a/b"` current/potential pairs and plain integers; every failure
path yields 0. -/
def parse_skill_value (value : String) : Int :=
  if value = "" ∨ trimChars value.toList = [] ∨ value = "?" ∨ value = "/?" then 0
  else
    match splitOnChar '/' value.toList with
    | p0 :: _ :: _ =>
      if p0 ≠ [] ∧ p0 ≠ ['?'] then (pyIntL p0).getD 0
      else (pyIntL value.toList).getD 0
    | _ => (pyIntL value.toList).getD 0

/-! ### `scouty/modules/match_analyzer.py` -/

/-- `result.split("-")` followed by the two-variable unpack and the two
`int` conversions; `none` is any of the exceptions the source catches. -/
def parse_result (s : String) : Option (Int × Int) :=
  match splitOnChar '-' s.toList with
  | [h, a] =>
    match pyIntL h, pyIntL a with
    | some x, some y => some (x, y)
    | _, _ => none
  | _ => none

/-- `MatchAnalyzer._is_win`: home goals strictly above away; any parse
failure is caught and returns `False`. -/
def is_win (s : String) : Bool :=
  match parse_result s with
  | some r => decide (r.2 < r.1)
  | none => false

/-- `MatchAnalyzer._is_draw`. -/
def is_draw (s : String) : Bool :=
  match parse_result s with
  | some r => decide (r.1 = r.2)
  | none => false

/-- `MatchAnalyzer._is_loss`. -/
def is_loss (s : String) : Bool :=
  match parse_result s with
  | some r => decide (r.1 < r.2)
  | none => false

/-- `MatchAnalyzer._get_goals_scored`: only the home half is converted,
so `"3-x"` still yields 3; a failed split or conversion yields 0. -/
def get_goals_scored (s : String) : Int :=
  match splitOnChar '-' s.toList with
  | [h, _] => (pyIntL h).getD 0
  | _ => 0

/-- `MatchAnalyzer._get_goals_conceded`. -/
def get_goals_conceded (s : String) : Int :=
  match splitOnChar '-' s.toList with
  | [_, a] => (pyIntL a).getD 0
  | _ => 0

/-- `MatchAnalyzer._get_match_points`: 3/1/0 for win/draw/anything else,
so an unparsable result lands in the 0-point `else` branch. -/
def get_match_points (s : String) : ℚ :=
  if is_win s then 3 else if is_draw s then 1 else 0

/-- One raw match record; only the keys the analyzer reads are modelled,
each `none` when the loosely-typed input omits it. -/
structure MatchRec where
  result : Option String
  possession : Option ℚ
  chances : Option Int
deriving DecidableEq, Repr

/-- Result of `MatchAnalyzer._analyze_possession`; the empty-input branch
of the source omits the `recommendation` key, hence the `Option`. -/
structure PossessionAnalysis where
  average : ℚ
  trend : String
  recommendation : Option String
deriving DecidableEq, Repr

/-- Result of `MatchAnalyzer._analyze_attack`. -/
structure AttackPatterns where
  average_chances : ℚ
  average_goals : ℚ
  conversion_rate : ℚ
deriving DecidableEq, Repr

/-- Result of `MatchAnalyzer._analyze_defense`. -/
structure DefensePatterns where
  goals_conceded_avg : ℚ
  clean_sheets : Nat
  defensive_strength : String
deriving DecidableEq, Repr

/-- The truthiness filter `[m.get("possession", 50) for m in matches if
m.get("possession")]`: both a missing key and the falsy value 0 drop out. -/
def possessions_of (ms : List MatchRec) : List ℚ :=
  ms.filterMap fun m =>
    match m.possession with
    | some v => if v = 0 then none else some v
    | none => none

/-- Same truthiness filter for the `chances` key. -/
def chances_of (ms : List MatchRec) : List Int :=
  ms.filterMap fun m =>
    match m.chances with
    | some v => if v = 0 then none else some v
    | none => none

/-- `MatchAnalyzer._analyze_possession`. -/
def analyze_possession (ms : List MatchRec) : PossessionAnalysis :=
  let possessions := possessions_of ms
  if possessions = [] then { average := 50, trend := "stable", recommendation := none }
  else
    let avg := possessions.sum / (possessions.length : ℚ)
    let recent_avg := (possessions.take 5).sum / ((min 5 possessions.length : Nat) : ℚ)
    let older_avg :=
      if possessions.length > 5 then
        (possessions.drop 5).sum / ((max 1 (possessions.length - 5) : Nat) : ℚ)
      else avg
    let trend :=
      if recent_avg > older_avg + 5 then "improving"
      else if recent_avg < older_avg - 5 then "declining"
      else "stable"
    { average := roundTo1 avg, trend := trend,
      recommendation := some (if avg < 45 then "Train playmaking" else "Maintain") }

/-- `MatchAnalyzer._calculate_conversion_rate`. -/
def calculate_conversion_rate (chances goals : List Int) : ℚ :=
  if chances = [] ∨ chances.sum = 0 then 0
  else roundTo1 (((goals.sum : ℚ) / (chances.sum : ℚ)) * 100)

/-- `MatchAnalyzer._analyze_attack`. -/
def analyze_attack (ms : List MatchRec) : AttackPatterns :=
  let chances := chances_of ms
  let goals := ms.map fun m => get_goals_scored (m.result.getD "")
  { average_chances :=
      if chances = [] then 0 else roundTo1 ((chances.sum : ℚ) / (chances.length : ℚ)),
    average_goals :=
      if goals = [] then 0 else roundTo1 ((goals.sum : ℚ) / (goals.length : ℚ)),
    conversion_rate := calculate_conversion_rate chances goals }

/-- `MatchAnalyzer._analyze_defense`.  On an empty match list the source
divides by `len(goals_conceded)` without a guard when computing
`defensive_strength` and raises `ZeroDivisionError`; that branch is
unreachable from `extract_patterns` (which guards for emptiness first)
and under Lean's quotient-by-zero convention it evaluates to "Strong". -/
def analyze_defense (ms : List MatchRec) : DefensePatterns :=
  let gc := ms.map fun m => get_goals_conceded (m.result.getD "")
  { goals_conceded_avg :=
      if gc = [] then 0 else roundTo1 ((gc.sum : ℚ) / (gc.length : ℚ)),
    clean_sheets := (gc.filter (· = 0)).length,
    defensive_strength := if (gc.sum : ℚ) / (gc.length : ℚ) < 1 then "Strong" else "Weak" }

/-- Return value of `MatchAnalyzer.extract_patterns`: either the
`{"error": ...}` dictionary (no analysis keys) or the full five-key
pattern dictionary. -/
inductive PatternsResult where
  | errDict (msg : String)
  | patterns (possession_analysis : PossessionAnalysis)
      (attack_patterns : AttackPatterns) (defense_patterns : DefensePatterns)
      (tactical_recommendations : List String) (weak_points : List String)
deriving DecidableEq, Repr

/-- `patterns.get("possession_analysis", {}).get("average", d)`. -/
def pa_average_or (patterns : PatternsResult) (d : ℚ) : ℚ :=
  match patterns with
  | .errDict _ => d
  | .patterns pa _ _ _ _ => pa.average

/-- `patterns.get("attack_patterns", {}).get("average_chances", d)`. -/
def ap_chances_or (patterns : PatternsResult) (d : ℚ) : ℚ :=
  match patterns with
  | .errDict _ => d
  | .patterns _ ap _ _ _ => ap.average_chances

/-- `patterns.get("defense_patterns", {}).get("goals_conceded_avg", d)`. -/
def dp_conceded_or (patterns : PatternsResult) (d : ℚ) : ℚ :=
  match patterns with
  | .errDict _ => d
  | .patterns _ _ dp _ _ => dp.goals_conceded_avg

/-- The threshold rules of `_generate_tactical_recommendations` applied
to an already-computed patterns dictionary (all three reads use explicit
defaults, so the error dictionary never raises here). -/
def gen_tactical_from (patterns : PatternsResult) : List String :=
  let possession := pa_average_or patterns 50
  let chances := ap_chances_or patterns 0
  let conceded := dp_conceded_or patterns 0
  let recs :=
    (if possession < 45 then ["Low possession - consider 3-5-2 or 4-5-1 formation"] else []) ++
    (if chances < 3 then ["Low chance creation - try counter-attack or focus on wingers"] else []) ++
    (if conceded > 2 then ["Weak defense - consider 5-3-2 or train defending"] else [])
  if recs = [] then ["Current tactics are working well"] else recs

/-- The threshold rules of `_identify_weak_points` applied to an
already-computed patterns dictionary. -/
def identify_weak_points_from (patterns : PatternsResult) : List String :=
  let weak :=
    (if pa_average_or patterns 50 < 45 then ["Midfield control"] else []) ++
    (if ap_chances_or patterns 0 < 3 then ["Attack creation"] else []) ++
    (if dp_conceded_or patterns 0 > 2 then ["Defense"] else [])
  if weak = [] then ["No major weak points identified"] else weak

/-- `MatchAnalyzer.extract_patterns`.  On a nonempty match list the
source recurses unboundedly: building the dictionary calls
`_generate_tactical_recommendations` and `_identify_weak_points`, each of
which starts by calling `extract_patterns` again.  The Python recursion
limit is modelled by an explicit fuel argument; exhausting it is the
interpreter's `RecursionError`. -/
def extract_patterns_fuel : Nat → List MatchRec → Except PyErr PatternsResult
  | 0, _ => .error PyErr.recursionError
  | n + 1, ms =>
    if ms = [] then .ok (.errDict "No matches to analyze")
    else
      match extract_patterns_fuel n ms with
      | .error e => .error e
      | .ok pat1 =>
        match extract_patterns_fuel n ms with
        | .error e => .error e
        | .ok pat2 =>
          .ok (.patterns (analyze_possession ms) (analyze_attack ms)
            (analyze_defense ms) (gen_tactical_from pat1)
            (identify_weak_points_from pat2))

/-- `MatchAnalyzer.suggest_tactical_changes`.  The first threshold reads
`possession_analysis.get("average")` with no default: when
`extract_patterns` produced the error dictionary the read yields `None`
and the comparison `None < 45` raises `TypeError`. -/
def suggest_tactical_changes_fuel (fuel : Nat) (ms : List MatchRec) :
    Except PyErr (List String) :=
  match extract_patterns_fuel fuel ms with
  | .error e => .error e
  | .ok patterns =>
    match patterns with
    | .errDict _ => .error PyErr.typeError
    | .patterns pa ap dp _ _ =>
      let suggestions :=
        (if pa.average < 45 then
          ["Low possession - consider training playmaking or changing formation"] else []) ++
        (if ap.average_chances < 3 then
          ["Low chance creation - focus on attacking training or winger development"] else []) ++
        (if dp.goals_conceded_avg > 2 then
          ["High goals conceded - strengthen defense or train defending"] else [])
      .ok (if suggestions = [] then
        ["Team performing well - maintain current tactics"] else suggestions)

/-! ### `scouty/modules/training_projection.py` -/

/-- `TrainingProjection._get_current_training_skill`: the skill dictionary
entry selected by `current_training`, `None` for an unknown training type
or a missing key. -/
def get_current_training_skill (ct : String) (p : Player) : Option Int :=
  if ct = "playmaking" then skillsGet p.skills "playmaking"
  else if ct = "defending" then skillsGet p.skills "defending"
  else if ct = "scoring" then skillsGet p.skills "scoring"
  else if ct = "winger" then skillsGet p.skills "winger"
  else if ct = "goalkeeping" then skillsGet p.skills "goalkeeping"
  else none

/-- `TrainingProjection._estimate_value_increase`: the chained heuristic
`tsi * 0.15 * skill_increase * 0.1`, with the current skill read through
Python's `or 0`. -/
def estimate_value_increase (ct : String) (p : Player) (new_skill : Int) : ℚ :=
  (p.tsi : ℚ) * (15 / 100) *
    ((new_skill - (get_current_training_skill ct p).getD 0 : Int) : ℚ) * (1 / 10)

/-- Result dictionary of `_project_player_skill_up`. -/
structure SkillUpProjection where
  projected_skill : Option Int
  weeks_to_improve : Option Int
  value_increase : ℚ
deriving DecidableEq, Repr

/-- `TrainingProjection._project_player_skill_up`.  The age-band rate is
0.5/1.0/2.0 weeks per skill point, but the projection divides by
`int(skillup_rate)`, which truncates 0.5 to 0 and makes `weeks // 0`
raise `ZeroDivisionError` for every player under 20. -/
def project_player_skill_up (ct : String) (p : Player) (weeks : Int) :
    Except PyErr SkillUpProjection :=
  match get_current_training_skill ct p with
  | none => .ok { projected_skill := none, weeks_to_improve := none, value_increase := 0 }
  | some current_skill =>
    let skillup_rate : ℚ := if p.age < 20 then 1 / 2 else if p.age < 25 then 1 else 2
    let r := pyIntOfFloat skillup_rate
    if r = 0 then .error PyErr.zeroDivisionError
    else
      let projected_skill := current_skill + Int.fdiv weeks r
      .ok { projected_skill := some projected_skill, weeks_to_improve := some r,
            value_increase := estimate_value_increase ct p projected_skill }

/-- `TrainingProjection._get_players_affected_by_training`: the source
returns the whole roster for every training type. -/
def get_players_affected_by_training (players : List Player) (tt : String) :
    List Player :=
  players

/-- `TrainingProjection._calculate_training_roi`: mean per-player value
increase, where each player's new skill is their current trained skill
(`or 0`), and an empty roster yields 0. -/
def calculate_training_roi (ct : String) (players : List Player) (tt : String) : ℚ :=
  if players = [] then 0
  else
    (players.map fun p =>
      estimate_value_increase ct p ((get_current_training_skill ct p).getD 0)).sum /
    (players.length : ℚ)

/-- `TrainingProjection._estimate_weeks_to_skillup`. -/
def estimate_weeks_to_skillup (players : List Player) : Int :=
  if players = [] then 999
  else
    let avg_age : ℚ := ((players.map Player.age).sum : ℚ) / (players.length : ℚ)
    if avg_age < 20 then 1 else if avg_age < 25 then 2 else 4

/-- One per-training-type entry of `compare_training_types`. -/
structure TrainingTypeEntry where
  affected_players : Nat
  estimated_roi : ℚ
  weeks_to_first_skillup : Int
deriving DecidableEq, Repr

/-- The `training_types` list iterated by `compare_training_types`. -/
def training_types : List String :=
  ["playmaking", "defending", "scoring", "winger", "goalkeeping"]

/-- The dictionary entry built for one training type. -/
def tt_entry (ct : String) (players : List Player) (tt : String) : TrainingTypeEntry :=
  { affected_players := (get_players_affected_by_training players tt).length,
    estimated_roi := calculate_training_roi ct (get_players_affected_by_training players tt) tt,
    weeks_to_first_skillup := estimate_weeks_to_skillup (get_players_affected_by_training players tt) }

/-- Return value of `compare_training_types`: the five per-type entries
plus the recommendation pair. -/
structure TrainingComparison where
  results : List (String × TrainingTypeEntry)
  best_training : String
  reason : String
deriving DecidableEq, Repr

/-- `TrainingProjection.compare_training_types`: builds the five entries
in iteration order, then `max(results.items(), key=estimated_roi)` — a
left fold that replaces the incumbent only on a strictly larger ROI, so
the first maximal entry wins — and reports
`f"Highest ROI: {roi:.2f}"`. -/
def compare_training_types (ct : String) (players : List Player) : TrainingComparison :=
  let results := training_types.map fun tt => (tt, tt_entry ct players tt)
  match results with
  | [] =>
    -- unreachable: `training_types` is a nonempty literal
    { results := results, best_training := "", reason := "" }
  | r0 :: rest =>
    let best := rest.foldl
      (fun b x => if x.2.estimated_roi > b.2.estimated_roi then x else b) r0
    { results := results, best_training := best.1,
      reason := "Highest ROI: " ++ formatF2 best.2.estimated_roi }

/-! ### Claim-side definitions

These functions transcribe the wording of spec claims (not the source) so
that source behaviour can be compared against them. -/

/-- Modelled from the claim (C6 wording): empty/`"?"`/`"/?"` map to 0; an
`"a/b"` string maps to the integer value of its first token, 0 when that
token is empty, `"?"` or unparsable; a plain integer string maps to its
value; anything else unparsable maps to 0. -/
def claimSkillValue (value : String) : Int :=
  if value = "" ∨ trimChars value.toList = [] ∨ value = "?" ∨ value = "/?" then 0
  else
    match splitOnChar '/' value.toList with
    | p0 :: _ :: _ => (pyIntL p0).getD 0
    | _ => (pyIntL value.toList).getD 0

/-- Modelled from the claim (C7 wording): goalkeeping above 10 wins; then
scoring, defending and winger are each compared strictly against the
maximum of the `other three` of {scoring, defending, winger, playmaking},
in that order, falling through to inner midfielder. -/
def claimBestPosition (p : Player) : Position :=
  if (skillsGet p.skills "goalkeeping").getD 0 > 10 then Position.GK
  else
    let defending := (skillsGet p.skills "defending").getD 0
    let playmaking := (skillsGet p.skills "playmaking").getD 0
    let winger := (skillsGet p.skills "winger").getD 0
    let scoring := (skillsGet p.skills "scoring").getD 0
    if scoring > max defending (max playmaking winger) then Position.FW
    else if defending > max scoring (max playmaking winger) then Position.CD
    else if winger > max scoring (max defending playmaking) then Position.WI
    else Position.IM

/-- The amended C7 comparison ladder, phrased with componentwise strict
comparisons: scoring against all other three, defending against
playmaking and winger only, winger against playmaking only. -/
def amendedBestPosition (p : Player) : Position :=
  if (skillsGet p.skills "goalkeeping").getD 0 > 10 then Position.GK
  else
    let defending := (skillsGet p.skills "defending").getD 0
    let playmaking := (skillsGet p.skills "playmaking").getD 0
    let winger := (skillsGet p.skills "winger").getD 0
    let scoring := (skillsGet p.skills "scoring").getD 0
    if scoring > defending ∧ scoring > playmaking ∧ scoring > winger then Position.FW
    else if defending > playmaking ∧ defending > winger then Position.CD
    else if winger > playmaking then Position.WI
    else Position.IM

deriving instance DecidableEq for Except

/-! ### Concrete inputs used by the claim theorems -/

/-- A main-squad row whose age 10 lies outside 15–50 but parses fine. -/
def c3RowAge : Row := [("ID do jogador", "1"), ("Nome", "X"), ("Idade", "10")]

/-- The player produced for `c3RowAge`: the out-of-range age survives
while the other four validated fields are reset to defaults. -/
def c3PlayerAge : Player :=
  { id := "1", name := "X", age := 10, position := Position.IM,
    skills := [("goalkeeping", 0), ("defending", 0), ("playmaking", 0),
               ("winger", 0), ("scoring", 0), ("set_pieces", 0)],
    salary := 0, tsi := 0, form := 5, stamina := 0, experience := 0, leadership := 0 }

/-- A main-squad row with a negative salary cell. -/
def c3RowSalary : Row :=
  [("ID do jogador", "2"), ("Nome", "Y"), ("Idade", "20"), ("Salário", "-5")]

/-- A main-squad row with a negative TSI cell. -/
def c3RowTsi : Row :=
  [("ID do jogador", "3"), ("Nome", "Z"), ("Idade", "20"), ("TSI", "-3")]

/-- A main-squad row whose salary cell "abc" fails float coercion. -/
def c5Row : Row :=
  [("ID do jogador", "7"), ("Nome", "A"), ("Idade", "22"), ("Salário", "abc")]

/-- A main-squad row whose goalkeeping skill cell "x" fails int coercion. -/
def c10Row : Row :=
  [("ID do jogador", "9"), ("Nome", "B"), ("Idade", "22"), ("Goleiro", "x")]

/-- A 19-year-old with playmaking 5 and TSI 1000. -/
def c2Player19 : Player :=
  { id := "1", name := "A", age := 19, position := Position.IM,
    skills := [("playmaking", 5)], salary := 0, tsi := 1000, form := 5, stamina := 0,
    experience := 0, leadership := 0 }

/-- The same player aged 22. -/
def c2Player22 : Player :=
  { c2Player19 with age := 22 }

/-- The same player aged 30. -/
def c2Player30 : Player :=
  { c2Player19 with age := 30 }

/-- The ROI stored in the `compare_training_types` results for one
training type (0 for a type absent from the dictionary). -/
def roiAt (ct : String) (players : List Player) (tt : String) : ℚ :=
  (((compare_training_types ct players).results.lookup tt).getD
    { affected_players := 0, estimated_roi := 0, weeks_to_first_skillup := 0 }).estimated_roi

/-! ### Supporting lemmas -/

/-- `int()` truncation of the float 0.5 is 0 — the divisor that makes the
under-20 projection branch raise. -/
theorem pyIntOfFloat_half : pyIntOfFloat (2⁻¹ : ℚ) = 0 := by
  norm_num [pyIntOfFloat]

/-- `int(1.0) = 1`. -/
theorem pyIntOfFloat_one : pyIntOfFloat 1 = 1 := by
  norm_num [pyIntOfFloat]

/-- `int(2.0) = 2`. -/
theorem pyIntOfFloat_two : pyIntOfFloat 2 = 2 := by
  norm_num [pyIntOfFloat]

/-- The value-increase heuristic vanishes when the new skill is the
current trained skill itself — the argument the ROI path always passes. -/
theorem estimate_value_increase_self (ct : String) (p : Player) :
    estimate_value_increase ct p ((get_current_training_skill ct p).getD 0) = 0 := by
  simp [estimate_value_increase]

/-- Hence every per-player term of the training ROI sum is 0. -/
theorem sum_estimate_self_zero (ct : String) :
    ∀ players : List Player,
      (players.map fun p =>
        estimate_value_increase ct p ((get_current_training_skill ct p).getD 0)).sum = 0 := by
  intro players
  induction players with
  | nil => simp
  | cons a l ih => simp [ih, estimate_value_increase_self]

/-- The training ROI the source computes is 0 for every training type:
`_calculate_training_roi` passes the current trained skill as the new
skill, so the skill delta is always 0. -/
theorem calculate_training_roi_eq_zero (ct : String) (players : List Player)
    (tt : String) : calculate_training_roi ct players tt = 0 := by
  unfold calculate_training_roi
  split_ifs with h
  · rfl
  · rw [sum_estimate_self_zero]
    exact zero_div _


/-- A split that produced at least two fragments must have seen the
separator. -/
theorem splitOnChar_two_mem {sep : Char} :
    ∀ {l : List Char} {p q : List Char} {ps : List (List Char)},
      splitOnChar sep l = p :: q :: ps → sep ∈ l := by
  intro l
  induction l with
  | nil => intro p q ps h; simp [splitOnChar] at h
  | cons c rest ih =>
    intro p q ps h
    by_cases hc : c = sep
    · subst hc; exact List.mem_cons_self c rest
    · rw [splitOnChar, if_neg hc] at h
      rcases hrec : splitOnChar sep rest with _ | ⟨P, Ps⟩
      · rw [hrec] at h; simp at h
      · rw [hrec] at h
        cases h
        exact List.mem_cons_of_mem c (ih hrec)

/-- Dropping a prefix by a predicate the element fails keeps it in the
list. -/
theorem mem_dropWhile_of_pred_false {α : Type} {p : α → Bool} {a : α} :
    ∀ {l : List α}, a ∈ l → p a = false → a ∈ l.dropWhile p := by
  intro l
  induction l with
  | nil => intro h _; cases h
  | cons x xs ih =>
    intro hmem hpa
    rcases List.mem_cons.mp hmem with rfl | hxs
    · rw [List.dropWhile_cons, hpa]; simp
    · by_cases hx : p x
      · rw [List.dropWhile_cons, hx]; simpa using ih hxs hpa
      · rw [List.dropWhile_cons]
        simp only [hx, Bool.false_eq_true, if_false]
        exact List.mem_cons_of_mem x hxs

/-- A non-whitespace character survives `strip()`. -/
theorem mem_trimChars {a : Char} {l : List Char} (hmem : a ∈ l)
    (ha : wsp a = false) : a ∈ trimChars l := by
  unfold trimChars
  refine List.mem_reverse.mpr (mem_dropWhile_of_pred_false ?_ ha)
  exact List.mem_reverse.mpr (mem_dropWhile_of_pred_false hmem ha)

/-- `int()` rejects any string containing a character that is neither a
digit, a sign, nor strippable whitespace. -/
theorem pyIntL_eq_none_of_bad_char {c : Char} {l : List Char} (hmem : c ∈ l)
    (hdig : c.isDigit = false) (hws : wsp c = false)
    (hminus : c ≠ '-') (hplus : c ≠ '+') : pyIntL l = none := by
  have htr : c ∈ trimChars l := mem_trimChars hmem hws
  rcases he : trimChars l with _ | ⟨d, rest⟩
  · rw [he] at htr; cases htr
  · rw [he] at htr
    rw [pyIntL, he]
    have hall : ∀ ds : List Char, c ∈ ds → ds.all Char.isDigit = false := by
      intro ds hds
      rcases h : ds.all Char.isDigit with _ | _
      · rfl
      · exact absurd (List.all_eq_true.mp h c hds) (by simp [hdig])
    by_cases hd1 : d = '-'
    · have hcr : c ∈ rest := by
        rcases List.mem_cons.mp htr with rfl | h
        · exact absurd hd1 hminus
        · exact h
      simp [hd1, hall rest hcr]
    · by_cases hd2 : d = '+'
      · have hcr : c ∈ rest := by
          rcases List.mem_cons.mp htr with rfl | h
          · exact absurd hd2 hplus
          · exact h
        simp [hd1, hd2, hall rest hcr]
      · simp [hd1, hd2, hall (d :: rest) htr]

/-! ### Claim theorems -/

/-- Claim C1 (counterexample): the aggregate false/false/false is in fact
reachable — on the malformed result string "x" none of `_is_win`,
`_is_draw`, `_is_loss` is true, so the three predicates do not classify
every string into exactly one true outcome. -/
theorem c1_counterexample :
    is_win "x" = false ∧ is_draw "x" = false ∧ is_loss "x" = false := by
  decide

/-- Claim C1 (amended): on every well-formed "H-A" integer-pair string the
three predicates yield exactly one true outcome; on every malformed string
all three are false, and such strings are treated as a loss only by
`_get_match_points`, whose else-branch awards the loss score 0. -/
theorem c1_result_classification (s : String) :
    (∀ x y : Int, parse_result s = some (x, y) →
      ((is_win s = true ∧ is_draw s = false ∧ is_loss s = false) ∨
       (is_win s = false ∧ is_draw s = true ∧ is_loss s = false) ∨
       (is_win s = false ∧ is_draw s = false ∧ is_loss s = true))) ∧
    (parse_result s = none →
      is_win s = false ∧ is_draw s = false ∧ is_loss s = false ∧
      get_match_points s = 0) := by
  constructor
  · intro x y h
    simp only [is_win, is_draw, is_loss, h]
    rcases lt_trichotomy x y with hlt | heq | hgt
    · refine Or.inr (Or.inr ⟨?_, ?_, ?_⟩) <;>
        simp only [decide_eq_true_eq, decide_eq_false_iff_not] <;> omega
    · refine Or.inr (Or.inl ⟨?_, ?_, ?_⟩) <;>
        simp only [decide_eq_true_eq, decide_eq_false_iff_not] <;> omega
    · refine Or.inl ⟨?_, ?_, ?_⟩ <;>
        simp only [decide_eq_true_eq, decide_eq_false_iff_not] <;> omega
  · intro h
    simp [is_win, is_draw, is_loss, get_match_points, h]

/-- Closes the hypotheses of `c1_result_classification` on concrete
inputs: the well-formed "3-1" and the malformed "x". -/
theorem c1_result_classification_witness :
    (((is_win "3-1" = true ∧ is_draw "3-1" = false ∧ is_loss "3-1" = false) ∨
      (is_win "3-1" = false ∧ is_draw "3-1" = true ∧ is_loss "3-1" = false) ∨
      (is_win "3-1" = false ∧ is_draw "3-1" = false ∧ is_loss "3-1" = true))) ∧
    (is_win "x" = false ∧ is_draw "x" = false ∧ is_loss "x" = false ∧
      get_match_points "x" = 0) :=
  ⟨(c1_result_classification "3-1").1 3 1 (by decide),
   (c1_result_classification "x").2 (by decide)⟩

/-- Claim C6: the youth-schema skill-cell parser maps every input string
exactly as the claim describes, and in particular "3/4" to 3, "?" to 0,
"/?" to 0, "" to 0 and "7" to 7. -/
theorem c6_parse_skill_value_spec :
    (∀ value : String, parse_skill_value value = claimSkillValue value) ∧
    parse_skill_value "3/4" = 3 ∧ parse_skill_value "?" = 0 ∧
    parse_skill_value "/?" = 0 ∧ parse_skill_value "" = 0 ∧
    parse_skill_value "7" = 7 := by
  refine ⟨?_, by decide, by decide, by decide, by decide, by decide⟩
  intro value
  unfold parse_skill_value claimSkillValue
  by_cases h0 : value = "" ∨ trimChars value.data = [] ∨ value = "?" ∨ value = "/?"
  · simp only [String.toList] at *
    simp [h0]
  · simp only [String.toList] at *
    simp only [h0, if_false]
    rcases hsp : splitOnChar '/' value.data with _ | ⟨p0, _ | ⟨q, ps⟩⟩
    · rfl
    · rfl
    · by_cases hp : p0 ≠ [] ∧ p0 ≠ ['?']
      · simp [hp]
      · have hslash : pyIntL value.data = none := by
          refine pyIntL_eq_none_of_bad_char (splitOnChar_two_mem hsp) ?_ ?_ ?_ ?_ <;> decide
        have hp0 : pyIntL p0 = none := by
          rcases not_and_or.mp hp with h | h
          · rw [not_not.mp h]; rfl
          · rw [not_not.mp h]; decide
        simp [hp, hslash, hp0]

/-- Claim C7 (counterexample): for a player with scoring 5 and defending 5
(all other skills absent), the source returns CentralDefender — defending
is only compared against playmaking and winger — while the claim's
rule of comparing each skill against the maximum of the other three
falls through to InnerMidfielder. -/
theorem c7_counterexample :
    get_best_position
      { id := "t", name := "T", age := 24, position := Position.IM,
        skills := [("scoring", 5), ("defending", 5)], salary := 0, tsi := 0,
        form := 5, stamina := 0, experience := 0, leadership := 0 } = Position.CD ∧
    claimBestPosition
      { id := "t", name := "T", age := 24, position := Position.IM,
        skills := [("scoring", 5), ("defending", 5)], salary := 0, tsi := 0,
        form := 5, stamina := 0, experience := 0, leadership := 0 } = Position.IM ∧
    Position.CD ≠ Position.IM := by
  refine ⟨by decide, by decide, by decide⟩

/-- Claim C7 (amended): goalkeeping above 10 always yields GoalKeeper;
otherwise scoring is compared strictly against all three of defending,
playmaking and winger, then defending against playmaking and winger only,
then winger against playmaking only, falling through to InnerMidfielder. -/
theorem c7_best_position_ladder (p : Player) :
    get_best_position p = amendedBestPosition p := by
  unfold get_best_position amendedBestPosition
  simp only [gt_iff_lt, max_lt_iff]

/-- Claim C8: cost-benefit is 0 whenever salary is 0 (no division fault),
and `tsi / salary` otherwise. -/
theorem c8_cost_benefit (p : Player) :
    (p.salary = 0 → calculate_cost_benefit p = 0) ∧
    (p.salary ≠ 0 → calculate_cost_benefit p = (p.tsi : ℚ) / p.salary) := by
  constructor <;> intro h <;> simp [calculate_cost_benefit, h]

/-- Closes the salary-0 hypothesis of `c8_cost_benefit` on a concrete
player with tsi 1234 and salary 0. -/
theorem c8_cost_benefit_witness :
    calculate_cost_benefit
      { id := "w", name := "W", age := 30, position := Position.FW,
        skills := [], salary := 0, tsi := 1234, form := 5, stamina := 50,
        experience := 3, leadership := 2 } = 0 :=
  (c8_cost_benefit _).1 rfl

/-- Claim C2 (code evaluation at the failing input): a 19-year-old with a
trained skill makes `_project_player_skill_up` raise `ZeroDivisionError`
(`weeks // int(0.5)` divides by zero) instead of returning
current + floor(weeks / 0.5); the other two age bands do return
current + floor(weeks / rate) and the heuristic value increase. -/
theorem c2_skill_up_projection_eval :
    project_player_skill_up "playmaking" c2Player19 4 =
      Except.error PyErr.zeroDivisionError ∧
    (project_player_skill_up "playmaking" c2Player22 4).map
      (fun r => (r.projected_skill, r.weeks_to_improve)) = Except.ok (some 9, some 1) ∧
    (project_player_skill_up "playmaking" c2Player22 4).map
      SkillUpProjection.value_increase = Except.ok 60 ∧
    (project_player_skill_up "playmaking" c2Player30 4).map
      (fun r => (r.projected_skill, r.weeks_to_improve)) = Except.ok (some 7, some 2) := by
  refine ⟨?_, ?_, ?_, ?_⟩
  · simp [project_player_skill_up, get_current_training_skill, skillsGet,
      pyIntOfFloat_half, c2Player19]
  · simp [project_player_skill_up, get_current_training_skill, skillsGet,
      pyIntOfFloat_one, c2Player22, c2Player19, Except.map]
  · simp [project_player_skill_up, get_current_training_skill, skillsGet,
      pyIntOfFloat_one, estimate_value_increase, c2Player22, c2Player19, Except.map]
    norm_num
  · simp [project_player_skill_up, get_current_training_skill, skillsGet,
      pyIntOfFloat_two, c2Player30, c2Player19, Except.map]

/-- Claim C3 (counterexample): the parsed-player range invariant fails —
an age of 10 survives parsing un-reset (only form/stamina/experience/
leadership are defaulted), and negative salary and TSI cells pass through
with no range check at all. -/
theorem c3_counterexample :
    (parse_portuguese_format c3RowAge = Except.ok c3PlayerAge ∧
      c3PlayerAge.age = 10 ∧ ¬ 15 ≤ c3PlayerAge.age) ∧
    ((parse_portuguese_format c3RowSalary).map Player.salary = Except.ok (-5) ∧
      ¬ (0 : ℚ) ≤ -5) ∧
    ((parse_portuguese_format c3RowTsi).map Player.tsi = Except.ok (-3) ∧
      ¬ (0 : Int) ≤ -3) := by
  refine ⟨⟨by decide, by decide, by decide⟩, ⟨?_, by norm_num⟩, ⟨by decide, by decide⟩⟩
  have h : (parse_portuguese_format c3RowSalary).map Player.salary
      = Except.ok ((-1 : ℚ) * ((5 : Nat) : ℚ)) := rfl
  rw [h]; norm_num

/-- Claim C3 (amended): every player produced by the main-squad Portuguese
parser has form in 1–8, stamina in 0–100, experience in 0–20 and
leadership in 0–20 — an out-of-range row is kept with those four fields
reset to defaults — while age, salary and tsi are not range-enforced. -/
theorem c3_portuguese_validated_ranges (row : Row) (p : Player)
    (h : parse_portuguese_format row = Except.ok p) :
    1 ≤ p.form ∧ p.form ≤ 8 ∧ 0 ≤ p.stamina ∧ p.stamina ≤ 100 ∧
    0 ≤ p.experience ∧ p.experience ≤ 20 ∧
    0 ≤ p.leadership ∧ p.leadership ≤ 20 := by
  unfold parse_portuguese_format at h
  rcases hs : parseSkillsPT row with _ | sk
  · rw [hs] at h; cases h
  · rw [hs] at h
    rcases hsix : parseSixDefaults row with ⟨sa, ts, fo, st, ex, le⟩
    rw [hsix] at h
    dsimp only [] at h
    split_ifs at h with hv
    · cases h
      simp only [validate_player_data, Bool.and_eq_true, decide_eq_true_eq] at hv
      dsimp only []
      refine ⟨?_, ?_, ?_, ?_, ?_, ?_, ?_, ?_⟩ <;> omega
    · cases h
      dsimp only []
      refine ⟨?_, ?_, ?_, ?_, ?_, ?_, ?_, ?_⟩ <;> omega

/-- Closes the `Except.ok` hypothesis of `c3_portuguese_validated_ranges`
on the concrete row `c3RowAge`. -/
theorem c3_portuguese_validated_ranges_witness :
    1 ≤ c3PlayerAge.form ∧ c3PlayerAge.form ≤ 8 ∧
    0 ≤ c3PlayerAge.stamina ∧ c3PlayerAge.stamina ≤ 100 ∧
    0 ≤ c3PlayerAge.experience ∧ c3PlayerAge.experience ≤ 20 ∧
    0 ≤ c3PlayerAge.leadership ∧ c3PlayerAge.leadership ≤ 20 :=
  c3_portuguese_validated_ranges c3RowAge c3PlayerAge (by decide)

/-- Claim C5: whenever a main-squad row reaches the six-field coercion
block (its skill cells coerce) and any of salary/tsi/form/stamina/
experience/leadership fails to coerce, the row is kept and the parsed
player carries exactly the full default tuple
salary 0.0, tsi 0, form 5, stamina 0, experience 0, leadership 0. -/
theorem c5_six_field_default_tuple (row : Row)
    (hsk : parseSkillsPT row ≠ none)
    (hfail : coerceFloat (rget row "Salário") 0 = none ∨
      coerceInt (rget row "TSI") 0 = none ∨
      coerceInt (rget row "Forma") 5 = none ∨
      coerceInt (rget row "Resistência") 0 = none ∨
      coerceInt (rget row "Experiência") 0 = none ∨
      coerceInt (rget row "Liderança") 0 = none) :
    ∃ p : Player, parse_portuguese_format row = Except.ok p ∧
      p.salary = 0 ∧ p.tsi = 0 ∧ p.form = 5 ∧ p.stamina = 0 ∧
      p.experience = 0 ∧ p.leadership = 0 := by
  have hdef : parseSixDefaults row = (0, 0, 5, 0, 0, 0) := by
    unfold parseSixDefaults
    rcases h1 : coerceFloat (rget row "Salário") 0 with _ | s1 <;>
      rcases h2 : coerceInt (rget row "TSI") 0 with _ | s2 <;>
      rcases h3 : coerceInt (rget row "Forma") 5 with _ | s3 <;>
      rcases h4 : coerceInt (rget row "Resistência") 0 with _ | s4 <;>
      rcases h5 : coerceInt (rget row "Experiência") 0 with _ | s5 <;>
      rcases h6 : coerceInt (rget row "Liderança") 0 with _ | s6 <;>
      simp_all
  rcases hs : parseSkillsPT row with _ | sk
  · exact absurd hs hsk
  · simp only [parse_portuguese_format, hs, hdef]
    by_cases hv : validate_player_data ((coerceInt (rget row "Idade") 0).getD 0)
        5 0 0 0
    · rw [if_pos hv]
      exact ⟨_, rfl, rfl, rfl, rfl, rfl, rfl, rfl⟩
    · rw [if_neg hv]
      exact ⟨_, rfl, rfl, rfl, rfl, rfl, rfl, rfl⟩

/-- Closes the hypotheses of `c5_six_field_default_tuple` on the concrete
row `c5Row`, whose salary cell "abc" fails float coercion. -/
theorem c5_six_field_default_tuple_witness :
    ∃ p : Player, parse_portuguese_format c5Row = Except.ok p ∧
      p.salary = 0 ∧ p.tsi = 0 ∧ p.form = 5 ∧ p.stamina = 0 ∧
      p.experience = 0 ∧ p.leadership = 0 :=
  c5_six_field_default_tuple c5Row (by decide) (Or.inl (by decide))

/-- Claim C10: a non-numeric cell in any of the six skill columns makes
`_parse_portuguese_format` raise, so the batch loop skips the whole row
and it contributes no player. -/
theorem c10_skill_coercion_skips_row (row : Row) (rest : List Row) :
    (∀ s, rget row "Goleiro" = some s → pyInt s = none →
      parse_portuguese_format row = Except.error PyErr.valueError ∧
      parseMainSquadRows (row :: rest) = parseMainSquadRows rest) ∧
    (∀ s, rget row "Defesa" = some s → pyInt s = none →
      parse_portuguese_format row = Except.error PyErr.valueError ∧
      parseMainSquadRows (row :: rest) = parseMainSquadRows rest) ∧
    (∀ s, rget row "Armação" = some s → pyInt s = none →
      parse_portuguese_format row = Except.error PyErr.valueError ∧
      parseMainSquadRows (row :: rest) = parseMainSquadRows rest) ∧
    (∀ s, rget row "Ala" = some s → pyInt s = none →
      parse_portuguese_format row = Except.error PyErr.valueError ∧
      parseMainSquadRows (row :: rest) = parseMainSquadRows rest) ∧
    (∀ s, rget row "Finalização" = some s → pyInt s = none →
      parse_portuguese_format row = Except.error PyErr.valueError ∧
      parseMainSquadRows (row :: rest) = parseMainSquadRows rest) ∧
    (∀ s, rget row "Bola Parada" = some s → pyInt s = none →
      parse_portuguese_format row = Except.error PyErr.valueError ∧
      parseMainSquadRows (row :: rest) = parseMainSquadRows rest) := by
  have key : parseSkillsPT row = none →
      parse_portuguese_format row = Except.error PyErr.valueError ∧
      parseMainSquadRows (row :: rest) = parseMainSquadRows rest := by
    intro h
    constructor
    · simp [parse_portuguese_format, h]
    · simp [parseMainSquadRows, parse_portuguese_format, h]
  refine ⟨?_, ?_, ?_, ?_, ?_, ?_⟩ <;> intro s hscol hbad <;> apply key
  · unfold parseSkillsPT
    simp [hscol, coerceInt, hbad]
  · unfold parseSkillsPT
    rcases h1 : coerceInt (rget row "Goleiro") 0 with _ | a1 <;>
      simp [h1, hscol, coerceInt, hbad]
  · unfold parseSkillsPT
    rcases h1 : coerceInt (rget row "Goleiro") 0 with _ | a1 <;>
      rcases h2 : coerceInt (rget row "Defesa") 0 with _ | a2 <;>
      simp [h1, h2, hscol, coerceInt, hbad]
  · unfold parseSkillsPT
    rcases h1 : coerceInt (rget row "Goleiro") 0 with _ | a1 <;>
      rcases h2 : coerceInt (rget row "Defesa") 0 with _ | a2 <;>
      rcases h3 : coerceInt (rget row "Armação") 0 with _ | a3 <;>
      simp [h1, h2, h3, hscol, coerceInt, hbad]
  · unfold parseSkillsPT
    rcases h1 : coerceInt (rget row "Goleiro") 0 with _ | a1 <;>
      rcases h2 : coerceInt (rget row "Defesa") 0 with _ | a2 <;>
      rcases h3 : coerceInt (rget row "Armação") 0 with _ | a3 <;>
      rcases h4 : coerceInt (rget row "Ala") 0 with _ | a4 <;>
      simp [h1, h2, h3, h4, hscol, coerceInt, hbad]
  · unfold parseSkillsPT
    rcases h1 : coerceInt (rget row "Goleiro") 0 with _ | a1 <;>
      rcases h2 : coerceInt (rget row "Defesa") 0 with _ | a2 <;>
      rcases h3 : coerceInt (rget row "Armação") 0 with _ | a3 <;>
      rcases h4 : coerceInt (rget row "Ala") 0 with _ | a4 <;>
      rcases h5 : coerceInt (rget row "Finalização") 0 with _ | a5 <;>
      simp [h1, h2, h3, h4, h5, hscol, coerceInt, hbad]

/-- Closes the hypotheses of `c10_skill_coercion_skips_row` on the
concrete row `c10Row`, whose goalkeeping cell "x" is non-numeric. -/
theorem c10_skill_coercion_skips_row_witness :
    parse_portuguese_format c10Row = Except.error PyErr.valueError ∧
    parseMainSquadRows (c10Row :: []) = parseMainSquadRows [] :=
  (c10_skill_coercion_skips_row c10Row []).1 "x" (by decide) (by decide)

/-- Claim C9: with the empty match list, `extract_patterns` returns the
error dictionary with no analysis keys, and `suggest_tactical_changes`
raises — the missing possession average is `None` and `None < 45` is a
`TypeError` — for every positive recursion budget. -/
theorem c9_empty_match_list (fuel : Nat) :
    extract_patterns_fuel (fuel + 1) [] =
      Except.ok (PatternsResult.errDict "No matches to analyze") ∧
    suggest_tactical_changes_fuel (fuel + 1) [] = Except.error PyErr.typeError := by
  constructor
  · simp [extract_patterns_fuel]
  · simp [suggest_tactical_changes_fuel, extract_patterns_fuel]

/-- Claim C4: `compare_training_types` stores, for each of the five
trainable skills, the mean per-player value increase computed by the
`tsi * 0.15 * skill_delta * 0.1` heuristic, recommends a training type
whose stored ROI is at least every listed type's ROI, and reports that
ROI in the `Highest ROI` justification string. -/
theorem c4_training_type_comparison (ct : String) (players : List Player) :
    ∃ e : TrainingTypeEntry,
      (compare_training_types ct players).results.lookup
          (compare_training_types ct players).best_training = some e ∧
      (compare_training_types ct players).reason
          = "Highest ROI: " ++ formatF2 e.estimated_roi ∧
      roiAt ct players "playmaking" ≤ e.estimated_roi ∧
      roiAt ct players "defending" ≤ e.estimated_roi ∧
      roiAt ct players "scoring" ≤ e.estimated_roi ∧
      roiAt ct players "winger" ≤ e.estimated_roi ∧
      roiAt ct players "goalkeeping" ≤ e.estimated_roi ∧
      roiAt ct players "playmaking" = calculate_training_roi ct players "playmaking" ∧
      roiAt ct players "defending" = calculate_training_roi ct players "defending" ∧
      roiAt ct players "scoring" = calculate_training_roi ct players "scoring" ∧
      roiAt ct players "winger" = calculate_training_roi ct players "winger" ∧
      roiAt ct players "goalkeeping" = calculate_training_roi ct players "goalkeeping" := by
  refine ⟨tt_entry ct players "playmaking", ?_⟩
  have hcmp : compare_training_types ct players =
      { results := training_types.map fun tt => (tt, tt_entry ct players tt),
        best_training := "playmaking",
        reason := "Highest ROI: " ++ formatF2 (tt_entry ct players "playmaking").estimated_roi } := by
    simp [compare_training_types, training_types, tt_entry,
      get_players_affected_by_training, calculate_training_roi_eq_zero, lt_irrefl]
  refine ⟨?_, ?_, ?_, ?_, ?_, ?_, ?_, ?_, ?_, ?_, ?_, ?_⟩ <;>
    simp [hcmp, roiAt, training_types, tt_entry, get_players_affected_by_training,
      calculate_training_roi_eq_zero, List.lookup]

end Scouty
